import Mathlib

/-!
Verification of the ISS tracker (src/main.py) against its specification.

The program is embedded shallowly: its pure computations become Lean
functions over ℚ (Python floats are modelled as exact rationals), its
fallible externals (geocoder, timezone database, HTTP fetches) become
explicit result values passed in, and a Python exception escaping a
function becomes an Except.error. Python's round (banker's rounding,
ties to even) is modelled by pyRound, its floor-based float modulo by
float_mod, and truthiness of strings and lists is modelled by explicit
emptiness tests.
-/

/-- Floor of a rational, computably: the numerator divided (Euclidean) by the
denominator, exactly as Mathlib's FloorRing instance for ℚ evaluates. -/
def ratFloor (q : ℚ) : ℤ := q.num / (q.den : ℤ)

theorem ratFloor_eq (q : ℚ) : ratFloor q = ⌊q⌋ := by
  rw [Rat.floor_def]; rfl

/-- Python's built-in round on an exact value: nearest integer, ties to even. -/
def pyRound (x : ℚ) : ℤ :=
  if x - ratFloor x < 1/2 then ratFloor x
  else if x - ratFloor x > 1/2 then ratFloor x + 1
  else if ratFloor x % 2 = 0 then ratFloor x else ratFloor x + 1

theorem pyRound_eq_of_lt_half (n : ℤ) (x : ℚ) (h1 : (n : ℚ) ≤ x)
    (h2 : x < n + 1/2) : pyRound x = n := by
  have hf : ratFloor x = n := by
    rw [ratFloor_eq]
    exact Int.floor_eq_iff.mpr ⟨h1, by linarith⟩
  have hc : x - ((ratFloor x : ℤ) : ℚ) < 1/2 := by rw [hf]; linarith
  unfold pyRound
  rw [if_pos hc, hf]

theorem pyRound_eq_of_gt_half (n : ℤ) (x : ℚ) (h1 : (n : ℚ) + 1/2 < x)
    (h2 : x < n + 1) : pyRound x = n + 1 := by
  have hf : ratFloor x = n := by
    rw [ratFloor_eq]
    exact Int.floor_eq_iff.mpr ⟨by linarith, h2⟩
  have hc1 : ¬(x - ((ratFloor x : ℤ) : ℚ) < 1/2) := by
    rw [hf]; intro hlt; linarith
  have hc2 : x - ((ratFloor x : ℤ) : ℚ) > 1/2 := by rw [hf]; linarith
  unfold pyRound
  rw [if_neg hc1, if_pos hc2, hf]

theorem pyRound_eq_of_half (n : ℤ) (x : ℚ) (h : x = (n : ℚ) + 1/2) :
    pyRound x = if n % 2 = 0 then n else n + 1 := by
  have hf : ratFloor x = n := by
    rw [ratFloor_eq]
    exact Int.floor_eq_iff.mpr ⟨by rw [h]; linarith, by rw [h]; linarith⟩
  have hc1 : ¬(x - ((ratFloor x : ℤ) : ℚ) < 1/2) := by
    rw [hf, h]; intro hlt; linarith
  have hc2 : ¬(x - ((ratFloor x : ℤ) : ℚ) > 1/2) := by
    rw [hf, h]; intro hlt; linarith
  unfold pyRound
  rw [if_neg hc1, if_neg hc2, hf]

theorem pyRound_sub_sixteen_mul (x : ℚ) (k : ℤ) :
    pyRound (x - ((16 * k : ℤ) : ℚ)) = pyRound x - 16 * k := by
  have hf : ratFloor (x - ((16 * k : ℤ) : ℚ)) = ratFloor x - 16 * k := by
    rw [ratFloor_eq, ratFloor_eq, Int.floor_sub_int]
  have hd : x - ((16 * k : ℤ) : ℚ) - ((ratFloor x - 16 * k : ℤ) : ℚ)
      = x - ((ratFloor x : ℤ) : ℚ) := by push_cast; ring
  have hp : (ratFloor x - 16 * k) % 2 = ratFloor x % 2 := by omega
  unfold pyRound
  rw [hf, hd, hp]
  split_ifs <;> omega

/-- The 16-point compass rose of get_cardinal_direction, clockwise from N. -/
def directions : List String :=
  ["N", "NNE", "NE", "ENE", "E", "ESE", "SE", "SSE",
   "S", "SSW", "SW", "WSW", "W", "WNW", "NW", "NNW"]

/-- src/main.py get_cardinal_direction: index = round(azimuth / 22.5) % 16,
then directions[index]. -/
def get_cardinal_direction (azimuth : ℚ) : String :=
  directions.getD (pyRound (azimuth / 22.5) % 16).toNat ""

/-- Python's float modulo a - b * floor(a / b), as the spec's
"azimuth values are taken modulo 360" reads for a positive modulus. -/
def float_mod (a b : ℚ) : ℚ := a - b * ((ratFloor (a / b) : ℤ) : ℚ)

theorem cardinal_of_hi_N (q : ℚ) (h1 : 348.75 ≤ q) (h2 : q < 360) :
    get_cardinal_direction q = "N" := by
  have hpos : (0 : ℚ) < 22.5 := by norm_num
  have hl : (15.5 : ℚ) ≤ q / 22.5 := by
    rw [le_div_iff hpos]; nlinarith
  have hu : q / 22.5 < 16 := by
    rw [div_lt_iff hpos]; nlinarith
  have hround : pyRound (q / 22.5) = 16 := by
    rcases eq_or_lt_of_le hl with heq | hlt
    · have h15 : q / 22.5 = ((15 : ℤ) : ℚ) + 1/2 := by rw [← heq]; norm_num
      rw [pyRound_eq_of_half 15 _ h15]
      norm_num
    · have := pyRound_eq_of_gt_half 15 (q / 22.5)
        (by push_cast; linarith) (by push_cast; linarith)
      rw [this]; norm_num
  unfold get_cardinal_direction
  rw [hround]
  decide

theorem cardinal_of_lo_N (q : ℚ) (h1 : 0 ≤ q) (h2 : q ≤ 11.25) :
    get_cardinal_direction q = "N" := by
  have hpos : (0 : ℚ) < 22.5 := by norm_num
  have hl : (0 : ℚ) ≤ q / 22.5 := by positivity
  have hu : q / 22.5 ≤ 1/2 := by
    rw [div_le_iff hpos]; nlinarith
  have hround : pyRound (q / 22.5) = 0 := by
    rcases eq_or_lt_of_le hu with heq | hlt
    · have h0 : q / 22.5 = ((0 : ℤ) : ℚ) + 1/2 := by rw [heq]; norm_num
      rw [pyRound_eq_of_half 0 _ h0]
      norm_num
    · exact pyRound_eq_of_lt_half 0 _ (by push_cast; linarith) (by push_cast; linarith)
  unfold get_cardinal_direction
  rw [hround]
  decide

theorem cardinal_at_int (q : ℚ) (n : ℤ) (h : q / 22.5 = (n : ℚ)) :
    get_cardinal_direction q = directions.getD ((n % 16).toNat) "" := by
  unfold get_cardinal_direction
  rw [h, pyRound_eq_of_lt_half n _ (le_refl _) (by linarith)]

/-- C1: on [0, 360) get_cardinal_direction is round-to-nearest-sector of the
16-point rose: it is definitionally indexing the rose at round(azimuth/22.5)
mod 16, it sends 0 to N, 45 to NE, 348.75 to N, 11.24 to N and 22.5 to NNE,
and every azimuth of [348.75, 360) and of [0, 11.25] lands on N. -/
theorem claim_C1_cardinal_direction :
    get_cardinal_direction 0 = "N" ∧
    get_cardinal_direction 45 = "NE" ∧
    get_cardinal_direction 348.75 = "N" ∧
    get_cardinal_direction 11.24 = "N" ∧
    get_cardinal_direction 22.5 = "NNE" ∧
    (∀ q : ℚ, 0 ≤ q → q < 360 →
      get_cardinal_direction q = directions.getD (pyRound (q / 22.5) % 16).toNat "") ∧
    (∀ q : ℚ, 348.75 ≤ q → q < 360 → get_cardinal_direction q = "N") ∧
    (∀ q : ℚ, 0 ≤ q → q ≤ 11.25 → get_cardinal_direction q = "N") := by
  refine ⟨?_, ?_, ?_, ?_, ?_, ?_, ?_, ?_⟩
  · rw [cardinal_at_int 0 0 (by norm_num)]; decide
  · rw [cardinal_at_int 45 2 (by norm_num)]; decide
  · exact cardinal_of_hi_N 348.75 (by norm_num) (by norm_num)
  · exact cardinal_of_lo_N 11.24 (by norm_num) (by norm_num)
  · rw [cardinal_at_int 22.5 1 (by norm_num)]; decide
  · intro q h1 h2; rfl
  · exact cardinal_of_hi_N
  · exact cardinal_of_lo_N

/-- C1 witness: the interval clauses applied at the concrete azimuths 350
and 5, with the hypotheses discharged there. -/
theorem claim_C1_witness :
    ((348.75 : ℚ) ≤ 350 ∧ (350 : ℚ) < 360 ∧ get_cardinal_direction 350 = "N") ∧
    ((0 : ℚ) ≤ 5 ∧ (5 : ℚ) ≤ 11.25 ∧ get_cardinal_direction 5 = "N") :=
  ⟨⟨by norm_num, by norm_num,
      claim_C1_cardinal_direction.2.2.2.2.2.2.1 350 (by norm_num) (by norm_num)⟩,
   ⟨by norm_num, by norm_num,
      claim_C1_cardinal_direction.2.2.2.2.2.2.2 5 (by norm_num) (by norm_num)⟩⟩

/-- C2: the direction label is invariant under first reducing the azimuth
modulo 360 (Python float modulo), for every rational azimuth, negative and
out-of-range ones included. -/
theorem claim_C2_mod360 (q : ℚ) :
    get_cardinal_direction q = get_cardinal_direction (float_mod q 360) := by
  have hdiv : float_mod q 360 / 22.5
      = q / 22.5 - ((16 * ratFloor (q / 360) : ℤ) : ℚ) := by
    unfold float_mod
    push_cast
    ring
  have hidx : pyRound (float_mod q 360 / 22.5)
      = pyRound (q / 22.5) - 16 * ratFloor (q / 360) := by
    rw [hdiv, pyRound_sub_sixteen_mul]
  unfold get_cardinal_direction
  rw [hidx]
  have hmod : (pyRound (q / 22.5) - 16 * ratFloor (q / 360)) % 16
      = pyRound (q / 22.5) % 16 := by omega
  rw [hmod]

/-- The one Python exception the embedded program can let escape: the KeyError
raised by data['passes'] in get_next_passes when the key is absent. -/
inductive PyError where
  | keyError
deriving DecidableEq

/-- Outcome of one requests.get call followed by raise_for_status, as seen by
the caller: a transport-level RequestException, an HTTPError for a bad status
code, or a decoded JSON body. -/
inductive FetchResult (α : Type) where
  | transportError (msg : String)
  | httpError (status : Nat) (msg : String)
  | success (data : α)

/-- A JSON numeric field as float() receives it: either a value float()
converts, or one on which float() raises ValueError. -/
inductive JsonNum where
  | num (q : ℚ)
  | malformed
deriving DecidableEq

/-- The first element of the positions array: each field is absent (KeyError
on access) or a JSON value handed to float(). -/
structure PositionEntry where
  satlatitude : Option JsonNum
  satlongitude : Option JsonNum
  sataltitude : Option JsonNum

/-- Decoded body of the position endpoint: whether an error field is present,
and the positions array when the key is present. -/
structure PositionsResponse where
  err : Option String
  positions : Option (List PositionEntry)

/-- src/main.py get_iss_position: every branch of its failure handling
returns (None, None, None); on a fully well-formed response it returns the
first entry's three floats. The checks run in source order: RequestException
first, then the error field, the missing positions key, the empty array, and
the three float() conversions left to right. -/
def get_iss_position (r : FetchResult PositionsResponse) :
    Option ℚ × Option ℚ × Option ℚ :=
  match r with
  | .transportError _ => (none, none, none)
  | .httpError _ _ => (none, none, none)
  | .success data =>
    match data.err with
    | some _ => (none, none, none)
    | none =>
      match data.positions with
      | none => (none, none, none)
      | some [] => (none, none, none)
      | some (p :: _) =>
        match p.satlatitude with
        | none => (none, none, none)
        | some .malformed => (none, none, none)
        | some (.num lat) =>
          match p.satlongitude with
          | none => (none, none, none)
          | some .malformed => (none, none, none)
          | some (.num lng) =>
            match p.sataltitude with
            | none => (none, none, none)
            | some .malformed => (none, none, none)
            | some (.num alt) => (some lat, some lng, some alt)

/-- The orchestrator's all(v is not None for v in (lat, lng, alt)) test. -/
def position_check (t : Option ℚ × Option ℚ × Option ℚ) : Bool :=
  t.1.isSome && t.2.1.isSome && t.2.2.isSome

/-- One element of the passes array, with the fields format_pass_info reads. -/
structure PassRecord where
  startUTC : ℤ
  endUTC : ℤ
  startAz : ℚ
  endAz : ℚ
  maxEl : ℚ
  duration : ℤ

/-- Decoded body of the visual-passes endpoint: the passes array when the key
is present, none when it is structurally absent. -/
structure PassesResponse where
  passes : Option (List PassRecord)

/-- src/main.py get_next_passes: a RequestException is caught and None is
returned; on a decoded body the function returns data['passes'], so an absent
passes key raises KeyError, which no handler catches. -/
def get_next_passes (r : FetchResult PassesResponse) :
    Except PyError (Option (List PassRecord)) :=
  match r with
  | .transportError _ => .ok none
  | .httpError _ _ => .ok none
  | .success data =>
    match data.passes with
    | some ps => .ok (some ps)
    | none => .error .keyError

/-- Modelled from the spec: the external pytz timezone database is not part
of the repository; pytz.timezone raises an UnknownTimeZoneError (a PytzError)
exactly when the identifier is not a known IANA name. A small concrete table
of known identifiers stands in for it, containing the two identifiers the
program itself introduces. -/
def pytz_all_timezones : List String :=
  ["UTC", "America/Los_Angeles", "America/New_York", "Europe/London", "Asia/Tokyo"]

/-- Modelled from the spec: the external datetime rendering
strftime('%Y-%m-%d %I:%M:%S %p %Z') of an epoch in a timezone. The claims
under proof concern only which labelled lines the formatted pass contains,
so the wall-clock text is an opaque but executable function of the epoch
and the timezone name. -/
def strftime_full (epoch : ℤ) (tzname : String) : String :=
  "[" ++ toString epoch ++ " " ++ tzname ++ "]"

/-- Modelled from the spec: the short strftime('%I:%M %p') rendering used in
the viewing-guide sentence. -/
def strftime_short (epoch : ℤ) (tzname : String) : String :=
  "[" ++ toString epoch ++ " " ++ tzname ++ " short]"

/-- The formatted Start line of format_pass_info. -/
def line_start (p : PassRecord) (tzname : String) : String :=
  "Start: " ++ strftime_full p.startUTC tzname

/-- The formatted starting-direction line: numeric azimuth plus its cardinal
label. -/
def line_start_dir (p : PassRecord) : String :=
  "Starting direction: " ++ toString p.startAz ++ "° (" ++
    get_cardinal_direction p.startAz ++ ")"

/-- The formatted maximum-elevation line. -/
def line_max_el (p : PassRecord) : String :=
  "Maximum Elevation: " ++ toString p.maxEl ++ "°"

/-- The formatted ending-direction line: numeric azimuth plus its cardinal
label. -/
def line_end_dir (p : PassRecord) : String :=
  "Ending direction: " ++ toString p.endAz ++ "° (" ++
    get_cardinal_direction p.endAz ++ ")"

/-- The formatted End line of format_pass_info. -/
def line_end (p : PassRecord) (tzname : String) : String :=
  "End: " ++ strftime_full p.endUTC tzname

/-- The formatted duration line. -/
def line_duration (p : PassRecord) : String :=
  "Duration: " ++ toString p.duration ++ " seconds"

/-- The viewing-guide sentence synthesizing direction, time and peak
elevation. -/
def line_guide (p : PassRecord) (tzname : String) : String :=
  "Viewing guide: Look " ++ get_cardinal_direction p.startAz ++ " at " ++
    strftime_short p.startUTC tzname ++ ", the ISS will rise to " ++
    toString p.maxEl ++ "° above horizon and set " ++
    get_cardinal_direction p.endAz

/-- src/main.py format_pass_info: with a recognized timezone it emits the
start line, start direction, maximum elevation, end direction, end line,
duration and viewing guide; when pytz.timezone raises it falls back to the
two UTC time lines only. -/
def format_pass_info (p : PassRecord) (timezone_str : String) : String :=
  if pytz_all_timezones.contains timezone_str then
    line_start p timezone_str ++ "\n" ++
    line_start_dir p ++ "\n" ++
    line_max_el p ++ "\n" ++
    line_end_dir p ++ "\n" ++
    line_end p timezone_str ++ "\n" ++
    line_duration p ++ "\n" ++
    line_guide p timezone_str
  else
    "Start: " ++ strftime_full p.startUTC "UTC" ++ "\n" ++
    "End: " ++ strftime_full p.endUTC "UTC" ++ "\n"

/-- Outcome of one geolocator.geocode call: a match, no match (None), or one
of the two caught geopy exceptions. -/
inductive GeocodeResult where
  | found (lat lng : ℚ) (address : String)
  | noMatch
  | geocoderTimedOut (msg : String)
  | geocoderUnavailable (msg : String)

/-- src/main.py get_city_coordinates: empty or absent input short-circuits to
the Los Angeles default without calling the geocoder; a found location is
passed through; no match and either caught geopy error fall back to the same
default. The Bool records whether the geocoder was invoked. -/
def get_city_coordinates (geocode : String → GeocodeResult)
    (location : Option String) : (ℚ × ℚ × String) × Bool :=
  match location with
  | none => ((34.052235, -118.243683, "Los Angeles"), false)
  | some loc =>
    if loc = "" then ((34.052235, -118.243683, "Los Angeles"), false)
    else
      match geocode loc with
      | .found lat lng addr => ((lat, lng, addr), true)
      | .noMatch => ((34.052235, -118.243683, "Los Angeles"), true)
      | .geocoderTimedOut _ => ((34.052235, -118.243683, "Los Angeles"), true)
      | .geocoderUnavailable _ => ((34.052235, -118.243683, "Los Angeles"), true)

/-- src/main.py get_timezone_from_coordinates: TimezoneFinder().timezone_at
returns an identifier or None, and the function returns
timezone_str or 'America/Los_Angeles' under Python truthiness. -/
def get_timezone_from_coordinates (tzdb : ℚ → ℚ → Option String)
    (latitude longitude : ℚ) : String :=
  match tzdb latitude longitude with
  | some s => if s = "" then "America/Los_Angeles" else s
  | none => "America/Los_Angeles"

/-- An observable side effect of a run that the claims mention: a standard
input prompt or an outbound network call. -/
inductive Effect where
  | prompt
  | net (endpoint : String)
deriving DecidableEq

/-- src/main.py get_user_location: one prompt for the city; empty city
returns None at once, otherwise state and country are prompted, country
defaults to USA, and the comma-separated location string is built. -/
def get_user_location (city state country : String) : List Effect × Option String :=
  if city.trim = "" then ([Effect.prompt], none)
  else
    let st := state.trim
    let co := if country.trim = "" then "USA" else country.trim
    ([Effect.prompt, Effect.prompt, Effect.prompt],
     some (city.trim ++ (if st = "" then "" else ", " ++ st) ++ ", " ++ co))

/-- What the orchestrator prints for the passes section: each pass formatted,
or the combined "No upcoming visible passes found or error fetching pass
data" message when the list is None or empty. -/
inductive PassesMsg where
  | listed (rendered : List String)
  | noPassesMsg
deriving DecidableEq

/-- The orchestrator's if passes: branch, with Python truthiness - both None
and the empty list print the no-passes message. -/
def render_passes (passes : Option (List PassRecord)) (timezone_str : String) :
    PassesMsg :=
  match passes with
  | some (p :: rest) => .listed ((p :: rest).map (fun pd => format_pass_info pd timezone_str))
  | some [] => .noPassesMsg
  | none => .noPassesMsg

/-- What one completed run of main displayed. -/
structure MainOutcome where
  address : String
  latitude : ℚ
  longitude : ℚ
  timezone : String
  positionShown : Bool
  passesMsg : PassesMsg

/-- Everything a run reads from its environment and collaborators: the
credential, the three prompted input lines, the geocoder, the offline
timezone table, and the two HTTP responses. -/
structure World where
  apiKey : Option String
  cityInput : String
  stateInput : String
  countryInput : String
  geocode : String → GeocodeResult
  tzdb : ℚ → ℚ → Option String
  positionsResp : FetchResult PositionsResponse
  passesResp : FetchResult PassesResponse

/-- src/main.py main(): prompt, resolve coordinates and timezone, fetch the
position (failures degrade to an unavailable message), fetch the passes and
render them. An uncaught exception from get_next_passes aborts the run. -/
def main_run (w : World) : Except PyError (List Effect × MainOutcome) :=
  let ul := get_user_location w.cityInput w.stateInput w.countryInput
  let gc := get_city_coordinates w.geocode ul.2
  let tz := get_timezone_from_coordinates w.tzdb gc.1.1 gc.1.2.1
  let pos := get_iss_position w.positionsResp
  match get_next_passes w.passesResp with
  | .error e => .error e
  | .ok passes =>
    .ok (ul.1 ++ (if gc.2 then [Effect.net "nominatim"] else []) ++
          [Effect.net "n2yo-positions", Effect.net "n2yo-visualpasses"],
         { address := gc.1.2.2, latitude := gc.1.1, longitude := gc.1.2.1,
           timezone := tz, positionShown := position_check pos,
           passesMsg := render_passes passes tz })

/-- The message of the __main__ guard when the credential is absent. -/
def missing_key_message : String :=
  "Error: N2YO API key not found. Please set the N2YO_API_KEY environment variable."

/-- How a whole process run ended: the missing-credential message with no
work done, or a completed main. -/
inductive ProgOutcome where
  | keyMissing (msg : String)
  | completed (outcome : MainOutcome)

/-- src/main.py __main__ guard: if not N2YO_API_KEY (absent or empty under
Python truthiness) print the error and do nothing else; otherwise run main. -/
def iss_tracker_program (w : World) : Except PyError (List Effect × ProgOutcome) :=
  if w.apiKey.getD "" = "" then .ok ([], .keyMissing missing_key_message)
  else (main_run w).map (fun r => (r.1, .completed r.2))

/-- A run whose collaborators all fail benignly: no geocoder match, no
timezone match, a transport error on the position fetch, and a pass response
whose passes array is present but empty. -/
def quiet_world : World :=
  { apiKey := some "KEY", cityInput := "", stateInput := "", countryInput := "",
    geocode := fun _ => GeocodeResult.noMatch,
    tzdb := fun _ _ => none,
    positionsResp := FetchResult.transportError "connection refused",
    passesResp := FetchResult.success ⟨some []⟩ }

/-- C3: get_next_passes passes the passes array through unchanged and in
order; an empty array comes back as an empty list (not None), and a run
whose pass response carries the empty array completes with the no-passes
message; a structurally absent passes key propagates as an uncaught
KeyError. -/
theorem claim_C3_passes_passthrough :
    (∀ ps : List PassRecord,
      get_next_passes (FetchResult.success ⟨some ps⟩) = Except.ok (some ps)) ∧
    (get_next_passes (FetchResult.success ⟨some []⟩) = Except.ok (some [])) ∧
    (∀ tzname, render_passes (some []) tzname = PassesMsg.noPassesMsg) ∧
    (∀ w : World, w.passesResp = FetchResult.success ⟨some []⟩ →
      ∃ eff mo, main_run w = Except.ok (eff, mo) ∧
        mo.passesMsg = PassesMsg.noPassesMsg) ∧
    (get_next_passes (FetchResult.success ⟨none⟩) = Except.error PyError.keyError) := by
  refine ⟨fun ps => rfl, rfl, fun tzname => rfl, ?_, rfl⟩
  intro w hw
  unfold main_run
  rw [hw]
  exact ⟨_, _, rfl, rfl⟩

/-- C3 witness: the orchestrator clause applied to the concrete quiet_world,
whose pass response is the present-but-empty array. -/
theorem claim_C3_witness :
    ∃ eff mo, main_run quiet_world = Except.ok (eff, mo) ∧
      mo.passesMsg = PassesMsg.noPassesMsg :=
  claim_C3_passes_passthrough.2.2.2.1 quiet_world rfl

/-- C4 fails on the code as stated: with the credential present, a pass
response missing the passes key makes get_next_passes raise an uncaught
KeyError, so the run aborts instead of completing. -/
theorem claim_C4_counterexample :
    iss_tracker_program { quiet_world with passesResp := FetchResult.success ⟨none⟩ }
      = Except.error PyError.keyError := rfl

/-- C4 (amended): with the credential present, every run whose pass-prediction
response is not a decoded body missing the passes key runs to normal
completion - geocoding, timezone, position-fetch and pass-prediction
transport failures are all absorbed; the missing-passes-key case is the one
exception and aborts the run. -/
theorem claim_C4_no_abort (w : World) (hkey : w.apiKey.getD "" ≠ "")
    (hpasses : ∀ pr : PassesResponse,
      w.passesResp = FetchResult.success pr → pr.passes ≠ none) :
    ∃ r, iss_tracker_program w = Except.ok r := by
  have hok : ∃ o, get_next_passes w.passesResp = Except.ok o := by
    rcases hr : w.passesResp with msg | ⟨st, msg⟩ | pr
    · exact ⟨none, rfl⟩
    · exact ⟨none, rfl⟩
    · rcases hp : pr.passes with _ | ps
      · exact absurd hp (hpasses pr hr)
      · exact ⟨some ps, by simp only [get_next_passes]; rw [hp]⟩
  obtain ⟨o, ho⟩ := hok
  have hmain : ∃ m, main_run w = Except.ok m := by
    unfold main_run
    rw [ho]
    exact ⟨_, rfl⟩
  obtain ⟨m, hm⟩ := hmain
  unfold iss_tracker_program
  rw [if_neg hkey, hm]
  exact ⟨_, rfl⟩

/-- C4 witness: the amended theorem applied to quiet_world, in which every
collaborator fails benignly, with both hypotheses discharged there. -/
theorem claim_C4_witness :
    quiet_world.apiKey.getD "" ≠ "" ∧
      ∃ r, iss_tracker_program quiet_world = Except.ok r :=
  ⟨by decide,
   claim_C4_no_abort quiet_world (by decide)
     (fun pr h => by cases h; simp)⟩

/-- C5: every branch of the failure taxonomy (transport error, bad HTTP
status, explicit service error field, missing positions key, empty positions
array, missing or malformed numeric fields in the first entry) yields
(None, None, None) rather than an exception, and a well-formed response
yields the first entry's three floats. -/
theorem claim_C5_position_taxonomy :
    (∀ msg, get_iss_position (FetchResult.transportError msg) = (none, none, none)) ∧
    (∀ st msg, get_iss_position (FetchResult.httpError st msg) = (none, none, none)) ∧
    (∀ e pos, get_iss_position (FetchResult.success ⟨some e, pos⟩) = (none, none, none)) ∧
    (get_iss_position (FetchResult.success ⟨none, none⟩) = (none, none, none)) ∧
    (get_iss_position (FetchResult.success ⟨none, some []⟩) = (none, none, none)) ∧
    (∀ b c rest, get_iss_position (FetchResult.success
      ⟨none, some (⟨none, b, c⟩ :: rest)⟩) = (none, none, none)) ∧
    (∀ b c rest, get_iss_position (FetchResult.success
      ⟨none, some (⟨some JsonNum.malformed, b, c⟩ :: rest)⟩) = (none, none, none)) ∧
    (∀ lat c rest, get_iss_position (FetchResult.success
      ⟨none, some (⟨some (JsonNum.num lat), none, c⟩ :: rest)⟩) = (none, none, none)) ∧
    (∀ lat c rest, get_iss_position (FetchResult.success
      ⟨none, some (⟨some (JsonNum.num lat), some JsonNum.malformed, c⟩ :: rest)⟩)
      = (none, none, none)) ∧
    (∀ lat lng rest, get_iss_position (FetchResult.success
      ⟨none, some (⟨some (JsonNum.num lat), some (JsonNum.num lng), none⟩ :: rest)⟩)
      = (none, none, none)) ∧
    (∀ lat lng rest, get_iss_position (FetchResult.success
      ⟨none, some (⟨some (JsonNum.num lat), some (JsonNum.num lng),
        some JsonNum.malformed⟩ :: rest)⟩) = (none, none, none)) ∧
    (∀ lat lng alt rest, get_iss_position (FetchResult.success
      ⟨none, some (⟨some (JsonNum.num lat), some (JsonNum.num lng),
        some (JsonNum.num alt)⟩ :: rest)⟩) = (some lat, some lng, some alt)) :=
  by refine ⟨?_, ?_, ?_, rfl, rfl, ?_, ?_, ?_, ?_, ?_, ?_, ?_⟩ <;> intros <;> rfl

/-- C10: get_iss_position returns an all-or-nothing triple - all three
components None, with the orchestrator's all-present check false, or all
three Some, with the check true; no mixed triple exists. -/
theorem claim_C10_all_or_nothing (r : FetchResult PositionsResponse) :
    (get_iss_position r = (none, none, none) ∧
      position_check (get_iss_position r) = false) ∨
    (∃ lat lng alt, get_iss_position r = (some lat, some lng, some alt) ∧
      position_check (get_iss_position r) = true) := by
  rcases r with msg | ⟨st, msg⟩ | ⟨err, pos⟩
  · left; exact ⟨rfl, rfl⟩
  · left; exact ⟨rfl, rfl⟩
  · rcases err with _ | e
    · rcases pos with _ | (_ | ⟨⟨a, b, c⟩, rest⟩)
      · left; exact ⟨rfl, rfl⟩
      · left; exact ⟨rfl, rfl⟩
      · rcases a with _ | (lat | _)
        · left; exact ⟨rfl, rfl⟩
        · rcases b with _ | (lng | _)
          · left; exact ⟨rfl, rfl⟩
          · rcases c with _ | (alt | _)
            · left; exact ⟨rfl, rfl⟩
            · right; exact ⟨lat, lng, alt, rfl, rfl⟩
            · left; exact ⟨rfl, rfl⟩
          · left; exact ⟨rfl, rfl⟩
        · left; exact ⟨rfl, rfl⟩
    · left; exact ⟨rfl, rfl⟩

/-- C7: empty or absent input yields the Los Angeles default without calling
the geocoder; no-match, timeout and unavailability responses each yield the
same default after a call; a match is passed through; and the resolver is
total - every input produces a usable location triple. -/
theorem claim_C7_location_resolver (geocode : String → GeocodeResult) :
    (get_city_coordinates geocode none
      = ((34.052235, -118.243683, "Los Angeles"), false)) ∧
    (get_city_coordinates geocode (some "")
      = ((34.052235, -118.243683, "Los Angeles"), false)) ∧
    (∀ loc, loc ≠ "" → geocode loc = GeocodeResult.noMatch →
      get_city_coordinates geocode (some loc)
        = ((34.052235, -118.243683, "Los Angeles"), true)) ∧
    (∀ loc msg, loc ≠ "" → geocode loc = GeocodeResult.geocoderTimedOut msg →
      get_city_coordinates geocode (some loc)
        = ((34.052235, -118.243683, "Los Angeles"), true)) ∧
    (∀ loc msg, loc ≠ "" → geocode loc = GeocodeResult.geocoderUnavailable msg →
      get_city_coordinates geocode (some loc)
        = ((34.052235, -118.243683, "Los Angeles"), true)) ∧
    (∀ loc lat lng addr, loc ≠ "" → geocode loc = GeocodeResult.found lat lng addr →
      get_city_coordinates geocode (some loc) = ((lat, lng, addr), true)) ∧
    (∀ location, ∃ lat lng addr called,
      get_city_coordinates geocode location = ((lat, lng, addr), called)) := by
  refine ⟨rfl, rfl, ?_, ?_, ?_, ?_, ?_⟩
  · intro loc h hg
    simp only [get_city_coordinates]
    rw [if_neg h, hg]
  · intro loc msg h hg
    simp only [get_city_coordinates]
    rw [if_neg h, hg]
  · intro loc msg h hg
    simp only [get_city_coordinates]
    rw [if_neg h, hg]
  · intro loc lat lng addr h hg
    simp only [get_city_coordinates]
    rw [if_neg h, hg]
  · intro location
    rcases location with _ | loc
    · exact ⟨_, _, _, _, rfl⟩
    · by_cases hl : loc = ""
      · subst hl; exact ⟨_, _, _, _, rfl⟩
      · rcases hg : geocode loc with ⟨lat, lng, addr⟩ | _ | m | m <;>
          exact ⟨_, _, _, _, by simp only [get_city_coordinates]; rw [if_neg hl, hg]⟩

/-- C7 witness: a non-empty query against a geocoder that finds no match
resolves to the Los Angeles default with the geocoder invoked. -/
theorem claim_C7_witness :
    get_city_coordinates (fun _ => GeocodeResult.noMatch) (some "Paris, France")
      = ((34.052235, -118.243683, "Los Angeles"), true) :=
  (claim_C7_location_resolver (fun _ => GeocodeResult.noMatch)).2.2.1
    "Paris, France" (by decide) rfl

/-- C8: a coordinate pair on which the offline lookup yields no identifier
resolves to the fixed fallback America/Los_Angeles, and a matched (nonempty)
identifier is returned unchanged; the function is total, so it never
raises. -/
theorem claim_C8_timezone_resolver (tzdb : ℚ → ℚ → Option String) (lat lng : ℚ) :
    (tzdb lat lng = none →
      get_timezone_from_coordinates tzdb lat lng = "America/Los_Angeles") ∧
    (∀ s, s ≠ "" → tzdb lat lng = some s →
      get_timezone_from_coordinates tzdb lat lng = s) := by
  constructor
  · intro h
    simp only [get_timezone_from_coordinates]
    rw [h]
  · intro s hs h
    simp only [get_timezone_from_coordinates]
    rw [h]
    simp only [if_neg hs]

/-- C8 witness: both clauses at concrete lookups - a missing match falls back
to America/Los_Angeles and a found identifier comes back unchanged. -/
theorem claim_C8_witness :
    get_timezone_from_coordinates (fun _ _ => none) 34 (-118)
      = "America/Los_Angeles" ∧
    get_timezone_from_coordinates (fun _ _ => some "Asia/Tokyo") 35 139
      = "Asia/Tokyo" :=
  ⟨(claim_C8_timezone_resolver (fun _ _ => none) 34 (-118)).1 rfl,
   (claim_C8_timezone_resolver (fun _ _ => some "Asia/Tokyo") 35 139).2
     "Asia/Tokyo" (by decide) rfl⟩

/-- C9: a run with no credential in the environment prints the error message
and performs no work: no prompt and no network call happens (the effect list
is empty) and main never starts. -/
theorem claim_C9_missing_key (w : World) (h : w.apiKey = none) :
    iss_tracker_program w
      = Except.ok ([], ProgOutcome.keyMissing missing_key_message) := by
  unfold iss_tracker_program
  rw [if_pos (by rw [h]; rfl)]

/-- C9 witness: the theorem at a concrete world with the credential absent. -/
theorem claim_C9_witness :
    iss_tracker_program { quiet_world with apiKey := none }
      = Except.ok ([], ProgOutcome.keyMissing missing_key_message) :=
  claim_C9_missing_key { quiet_world with apiKey := none } rfl

theorem contains_head (line post out : String) (h : out = line ++ post) :
    line.data <:+: out.data :=
  ⟨[], post.data, by rw [h]; simp [String.data_append]⟩

theorem contains_mid (pre line post out : String) (h : out = pre ++ line ++ post) :
    line.data <:+: out.data :=
  ⟨pre.data, post.data, by rw [h]; simp [String.data_append]⟩

theorem contains_tail (pre line out : String) (h : out = pre ++ line) :
    line.data <:+: out.data :=
  ⟨pre.data, [], by rw [h]; simp [String.data_append]⟩

/-- C6: with a recognized timezone identifier the formatted pass contains all
six informational lines and the viewing guide - start time, start direction
with its cardinal label, maximum elevation, end direction with its cardinal
label, end time, and duration; with an unrecognized identifier the output is
exactly the two UTC time lines, with azimuth, elevation, duration and
viewing guide omitted. -/
theorem claim_C6_format_pass_info (p : PassRecord) (tz : String) :
    (pytz_all_timezones.contains tz = true →
      (line_start p tz).data <:+: (format_pass_info p tz).data ∧
      (line_start_dir p).data <:+: (format_pass_info p tz).data ∧
      (line_max_el p).data <:+: (format_pass_info p tz).data ∧
      (line_end_dir p).data <:+: (format_pass_info p tz).data ∧
      (line_end p tz).data <:+: (format_pass_info p tz).data ∧
      (line_duration p).data <:+: (format_pass_info p tz).data ∧
      (line_guide p tz).data <:+: (format_pass_info p tz).data) ∧
    (pytz_all_timezones.contains tz = false →
      format_pass_info p tz =
        "Start: " ++ strftime_full p.startUTC "UTC" ++ "\n" ++
        "End: " ++ strftime_full p.endUTC "UTC" ++ "\n") := by
  constructor
  · intro hv
    have hout : format_pass_info p tz =
        line_start p tz ++ "\n" ++ line_start_dir p ++ "\n" ++ line_max_el p ++
        "\n" ++ line_end_dir p ++ "\n" ++ line_end p tz ++ "\n" ++
        line_duration p ++ "\n" ++ line_guide p tz := by
      unfold format_pass_info
      rw [hv, if_pos rfl]
    refine ⟨?_, ?_, ?_, ?_, ?_, ?_, ?_⟩
    · exact contains_head (line_start p tz)
        ("\n" ++ line_start_dir p ++ "\n" ++ line_max_el p ++ "\n" ++
          line_end_dir p ++ "\n" ++ line_end p tz ++ "\n" ++ line_duration p ++
          "\n" ++ line_guide p tz) _
        (by rw [hout]; simp [String.append_assoc])
    · exact contains_mid (line_start p tz ++ "\n") (line_start_dir p)
        ("\n" ++ line_max_el p ++ "\n" ++ line_end_dir p ++ "\n" ++
          line_end p tz ++ "\n" ++ line_duration p ++ "\n" ++ line_guide p tz) _
        (by rw [hout]; simp [String.append_assoc])
    · exact contains_mid (line_start p tz ++ "\n" ++ line_start_dir p ++ "\n")
        (line_max_el p)
        ("\n" ++ line_end_dir p ++ "\n" ++ line_end p tz ++ "\n" ++
          line_duration p ++ "\n" ++ line_guide p tz) _
        (by rw [hout]; simp [String.append_assoc])
    · exact contains_mid
        (line_start p tz ++ "\n" ++ line_start_dir p ++ "\n" ++ line_max_el p ++ "\n")
        (line_end_dir p)
        ("\n" ++ line_end p tz ++ "\n" ++ line_duration p ++ "\n" ++ line_guide p tz) _
        (by rw [hout]; simp [String.append_assoc])
    · exact contains_mid
        (line_start p tz ++ "\n" ++ line_start_dir p ++ "\n" ++ line_max_el p ++
          "\n" ++ line_end_dir p ++ "\n")
        (line_end p tz)
        ("\n" ++ line_duration p ++ "\n" ++ line_guide p tz) _
        (by rw [hout]; simp [String.append_assoc])
    · exact contains_mid
        (line_start p tz ++ "\n" ++ line_start_dir p ++ "\n" ++ line_max_el p ++
          "\n" ++ line_end_dir p ++ "\n" ++ line_end p tz ++ "\n")
        (line_duration p)
        ("\n" ++ line_guide p tz) _
        (by rw [hout]; simp [String.append_assoc])
    · exact contains_tail
        (line_start p tz ++ "\n" ++ line_start_dir p ++ "\n" ++ line_max_el p ++
          "\n" ++ line_end_dir p ++ "\n" ++ line_end p tz ++ "\n" ++
          line_duration p ++ "\n")
        (line_guide p tz) _
        (by rw [hout])
  · intro hv
    unfold format_pass_info
    rw [hv, if_neg Bool.false_ne_true]

/-- A concrete pass record for evaluating the formatter. -/
def sample_pass : PassRecord :=
  { startUTC := 1700000000, endUTC := 1700000600, startAz := 45, endAz := 315,
    maxEl := 80, duration := 600 }

/-- C6 witness: the theorem at a concrete pass record, once with the
recognized identifier America/Los_Angeles and once with an unrecognized
one, the hypotheses discharged by evaluation. -/
theorem claim_C6_witness :
    (pytz_all_timezones.contains "America/Los_Angeles" = true ∧
      (line_duration sample_pass).data <:+:
        (format_pass_info sample_pass "America/Los_Angeles").data) ∧
    (pytz_all_timezones.contains "Mars/Olympus" = false ∧
      format_pass_info sample_pass "Mars/Olympus" =
        "Start: " ++ strftime_full sample_pass.startUTC "UTC" ++ "\n" ++
        "End: " ++ strftime_full sample_pass.endUTC "UTC" ++ "\n") :=
  ⟨⟨by decide,
    (((claim_C6_format_pass_info sample_pass "America/Los_Angeles").1
      (by decide)).2.2.2.2.2.1)⟩,
   ⟨by decide,
    (claim_C6_format_pass_info sample_pass "Mars/Olympus").2 (by decide)⟩⟩
